import Mathlib

/-!
Verification of the R2E-Gym execution-runtime layer
(`src/r2egym/agenthub/runtime/{base,docker,apptainer}.py`).

The Python code is shallowly embedded: pure computations (reward
calculation, key truncation, exit-code classification, ANSI stripping,
retry loops) become executable Lean functions; effectful calls into the
sandbox (`self.run`, `copy_to_container`, the Kubernetes / Docker /
Apptainer control planes, git) are modelled by explicit oracle
parameters, and the surrounding control flow is translated faithfully.
Python dicts are modelled as association lists in insertion order with
unique keys; floats `0.0` / `1.0` are modelled as the rationals `0` / `1`
(both are exactly representable, and the code only ever produces these
two values).
-/

namespace R2EGym

/-! ## Generic string helpers

Python `needle in haystack` (substring test) and the character-level
operations the runtime performs on strings. -/

/-- Substring test on character lists: Python `n in h` for strings. -/
def listContains (n : List Char) : List Char → Bool
  | [] => n.isEmpty
  | c :: rest => n.isPrefixOf (c :: rest) || listContains n rest

/-- The characters of a string strictly before the first occurrence of the
separator `sep`: Python `s.split(sep)[0]` for a non-empty `sep`. -/
def takeUntilSep (sep : List Char) : List Char → List Char
  | [] => []
  | c :: rest => if sep.isPrefixOf (c :: rest) then [] else c :: takeUntilSep sep rest

/-! ## ANSI / carriage-return normalization

`re.sub(r"\x1b\[[0-9;]*m|\r", "", output)` — used by `run`,
`run_tests` and `demux_run` to normalize command output
(`base.py:264`, `docker.py:379,432`, `apptainer.py:244,429,471`). -/

/-- Is `c` one of the SGR parameter characters `[0-9;]`? -/
def isSgrParam (c : Char) : Bool := c.isDigit || c == ';'

/-- After an `ESC [` prefix, skip the `[0-9;]*` run; if the next character
is `m` return the remainder of the input (a regex match), else `none`. -/
def sgrTail : List Char → Option (List Char)
  | [] => none
  | c :: rest => if c == 'm' then some rest else if isSgrParam c then sgrTail rest else none

theorem sgrTail_length_le : ∀ l rest, sgrTail l = some rest → rest.length < l.length := by
  intro l
  induction l with
  | nil => intro rest h; simp [sgrTail] at h
  | cons c cs ih =>
    intro rest h
    simp only [sgrTail] at h
    split at h
    · cases h; simp
    · split at h
      · have := ih rest h
        simp at this ⊢
        omega
      · cases h

/-- One left-to-right pass of the substitution
`re.sub(r"\x1b\[[0-9;]*m|\r", "", ·)` over a character list: a `\r` is
deleted, a full SGR sequence `ESC [ [0-9;]* m` is deleted, and any other
character (including an `ESC` that does not begin a complete SGR
sequence) is kept, scanning left to right without overlap — exactly the
match discipline of Python `re.sub`. -/
def stripAnsiAux : List Char → List Char
  | [] => []
  | '\r' :: rest => stripAnsiAux rest
  | '\x1b' :: '[' :: rest2 =>
    match h : sgrTail rest2 with
    | some rest3 => stripAnsiAux rest3
    | none => '\x1b' :: '[' :: stripAnsiAux rest2
  | '\x1b' :: rest => '\x1b' :: stripAnsiAux rest
  | c :: rest => c :: stripAnsiAux rest
termination_by l => l.length
decreasing_by
  all_goals simp only [List.length_cons]
  all_goals try omega
  have := sgrTail_length_le rest2 rest3 h
  omega

/-- `re.sub(r"\x1b\[[0-9;]*m|\r", "", s)`. -/
def stripAnsi (s : String) : String := ⟨stripAnsiAux s.data⟩

/-- Does the string contain a carriage-return character? -/
def containsCR (s : String) : Bool := s.data.contains '\r'

theorem stripAnsiAux_no_cr : ∀ l, '\r' ∉ stripAnsiAux l := by
  intro l
  induction l using stripAnsiAux.induct
  all_goals simp_all [stripAnsiAux]
  case case3 rest2 rest3 h ih => split <;> simp_all
  case case4 rest2 h ih => split <;> simp_all
  case case6 c rest hc hesc ih => exact fun hh => hc hh.symm

theorem containsCR_stripAnsi (s : String) : containsCR (stripAnsi s) = false := by
  have := stripAnsiAux_no_cr s.data
  simp only [containsCR, stripAnsi]
  simpa using this

/-! ## Python dict model

A Python `dict` is an association list in insertion order whose keys are
unique.  `dictInsert` is `d[k] = v` (replace in place, or append), and
`sortByKey` is `sorted(d.keys())` lifted to the key/value pairs. -/

/-- Python `d[k] = v` on an insertion-ordered dict. -/
def dictInsert (d : List (String × String)) (k v : String) : List (String × String) :=
  if d.any (fun p => p.1 == k) then d.map (fun p => if p.1 == k then (k, v) else p)
  else d ++ [(k, v)]

/-- Lexicographic code-point comparison of character lists: Python `a <= b`
on strings. -/
def lexLe : List Char → List Char → Bool
  | [], _ => true
  | _ :: _, [] => false
  | a :: as, b :: bs =>
    if a.toNat < b.toNat then true
    else if b.toNat < a.toNat then false
    else lexLe as bs

/-- Python `a <= b` on strings (code-point lexicographic order). -/
def strLe (a b : String) : Bool := lexLe a.data b.data

/-- Insert an entry into a key-sorted list of entries. -/
def insertByKey (kv : String × String) : List (String × String) → List (String × String)
  | [] => [kv]
  | x :: xs => if strLe kv.1 x.1 then kv :: x :: xs else x :: insertByKey kv xs

/-- The entries of `m` ordered by `sorted(m.keys())` (code-point order;
keys of a dict are unique, so ties never arise). -/
def sortByKey : List (String × String) → List (String × String)
  | [] => []
  | kv :: rest => insertByKey kv (sortByKey rest)

/-! ## Default-mode reward strategy — `_calculate_reward_r2e`
(`base.py:386-417`).

The parsed and expected status mappings (already decolored — the
external `decolor_dict_keys` collaborator is applied before this logic)
are rebuilt with each key truncated at its first `" - "` delimiter,
iterating over the keys in sorted order:
`{k.split(" - ")[0]: m[k] for k in sorted(m.keys())}`. -/

/-- Python `k.split(" - ")[0]`. -/
def truncKey (k : String) : String := ⟨takeUntilSep " - ".data k.data⟩

/-- `{k.split(" - ")[0]: m[k] for k in sorted(m.keys())}`. -/
def truncMap (m : List (String × String)) : List (String × String) :=
  (sortByKey m).foldl (fun d kv => dictInsert d (truncKey kv.1) kv.2) []

/-- The `for k in parse.keys()` comparison loop of `_calculate_reward_r2e`:
empty keys are skipped (`if not k: continue`); a key missing from
`expected` or bound to a different status breaks with `match = False`. -/
def checkR2e (p e : List (String × String)) : Bool :=
  match p with
  | [] => true
  | kv :: rest =>
    if kv.1 == "" then checkR2e rest e
    else
      match e.lookup kv.1 with
      | none => false
      | some v2 => if kv.2 == v2 then checkR2e rest e else false

/-- `_calculate_reward_r2e` after log parsing: reward from the raw parsed
and expected mappings.  `0.0`/`1.0` are modelled as the rationals `0`/`1`. -/
def rewardR2e (parse expected : List (String × String)) : ℚ :=
  let p := truncMap parse
  let e := truncMap expected
  if p.length ≠ e.length then 0
  else if checkR2e p e then 1 else 0

theorem checkR2e_eq_true_iff (p e : List (String × String)) :
    checkR2e p e = true ↔ ∀ kv ∈ p, kv.1 ≠ "" → e.lookup kv.1 = some kv.2 := by
  induction p with
  | nil => simp [checkR2e]
  | cons kv rest ih =>
    by_cases hk : kv.1 = ""
    · simp [checkR2e, hk, ih]
    · simp only [checkR2e, beq_iff_eq, hk, if_false, List.mem_cons]
      cases hl : e.lookup kv.1 with
      | none =>
        simp only [Bool.false_eq_true, false_iff]
        intro hall
        have := hall kv (Or.inl rfl) hk
        rw [hl] at this
        cases this
      | some v2 =>
        by_cases hv : kv.2 = v2
        · subst hv
          simp only [beq_self_eq_true, if_true, ih]
          constructor
          · rintro hall kv' (rfl | hm) hne
            · exact hl
            · exact hall kv' hm hne
          · intro hall kv' hm hne
            exact hall kv' (Or.inr hm) hne
        · simp only [beq_iff_eq, hv, if_false, Bool.false_eq_true, false_iff]
          intro hall
          have := hall kv (Or.inl rfl) hk
          rw [hl] at this
          exact hv (Option.some_injective _ this).symm

/-- **C1 (amended).** For the default-mode reward strategy, on arbitrary
parsed and expected mappings, the reward is `1.0` iff the two key-truncated
mappings have equal cardinality and every entry of the truncated parsed
mapping **with a non-empty key** occurs in the truncated expected mapping
with an identical status value (empty keys are skipped by the
`if not k: continue` guard); any other relationship yields `0.0`, and the
computation is total (it never raises). -/
theorem r2e_reward_eq_one_iff (parse expected : List (String × String)) :
    rewardR2e parse expected = 1 ↔
      ((truncMap parse).length = (truncMap expected).length ∧
        ∀ kv ∈ truncMap parse, kv.1 ≠ "" →
          (truncMap expected).lookup kv.1 = some kv.2) := by
  by_cases hlen : (truncMap parse).length = (truncMap expected).length
  · by_cases hchk : checkR2e (truncMap parse) (truncMap expected) = true
    · have h2 := (checkR2e_eq_true_iff (truncMap parse) (truncMap expected)).mp hchk
      simp only [rewardR2e, hlen, ne_eq, not_true_eq_false, if_false, hchk, if_true]
      exact ⟨fun _ => ⟨trivial, h2⟩, fun _ => trivial⟩
    · have h2 : ¬ ∀ kv ∈ truncMap parse, kv.1 ≠ "" →
          (truncMap expected).lookup kv.1 = some kv.2 := by
        rw [← checkR2e_eq_true_iff]; exact hchk
      simp only [rewardR2e, hlen, ne_eq, not_true_eq_false, if_false, hchk]
      constructor
      · intro h0; exact absurd h0 (by norm_num)
      · rintro ⟨_, hall⟩; exact absurd hall h2
  · simp [rewardR2e, hlen]

/-- **C1, counterexample to the claim as stated.**  With parsed mapping
`{"": "FAILED"}` and expected mapping `{"a": "PASSED"}` the two truncated
mappings have equal cardinality, the parsed key `""` is missing from the
expected mapping, yet the reward is `1.0` — the claim's "any missing key
… yields 0.0" fails, because the loop skips empty keys. -/
theorem r2e_claim_counterexample :
    rewardR2e [("", "FAILED")] [("a", "PASSED")] = 1 ∧
    (truncMap [("", "FAILED")]).length = (truncMap [("a", "PASSED")]).length ∧
    ("", "FAILED") ∈ truncMap [("", "FAILED")] ∧
    (truncMap [("a", "PASSED")]).lookup "" = none :=
  ⟨by decide, by decide, by decide, by decide⟩

/-! ## Smith-generated reward strategy — `_calculate_reward_swesmith`
(`base.py:339-368`). -/

/-- Split a character list at every (non-overlapping, leftmost) occurrence
of `"::"`: Python `s.split("::")`. -/
def splitColons : List Char → List (List Char)
  | [] => [[]]
  | ':' :: ':' :: rest => [] :: splitColons rest
  | c :: rest =>
    match splitColons rest with
    | [] => [[c]]
    | g :: gs => (c :: g) :: gs

/-- Python `".".join(parts)`. -/
def joinDots : List (List Char) → List Char
  | [] => []
  | [x] => x
  | x :: xs => x ++ '.' :: joinDots xs

/-- `".".join(line.split("::")[1:])` — drop the file-path component of a
test identifier and re-join the rest with `"."`. -/
def stripTestId (line : String) : String := ⟨joinDots ((splitColons line.data).drop 1)⟩

/-- One identifier check of the `_calculate_reward_swesmith` loops: a
direct hit must have status `PASSED`; otherwise the first parsed key
containing the identifier as a substring is looked up and must have
status `PASSED`; no match at all fails.  (The fail-to-pass loop performs
the fallback `PASSED` comparison twice in the source — on
`parse[matching_key]` and again after `test_name = matching_key` — which
collapses to the single lookup below; the pass-to-pass loop performs it
once, on the same lookup.) -/
def swesmithIdPassed (parse : List (String × String)) (name : String) : Bool :=
  match parse.lookup name with
  | some st => st == "PASSED"
  | none =>
    match parse.find? (fun p => listContains name.data p.1.data) with
    | none => false
    | some p => parse.lookup p.1 == some "PASSED"

/-- The early-return loop over a list of (already stripped) identifiers. -/
def checkIdList (parse : List (String × String)) : List String → Bool
  | [] => true
  | n :: rest => if swesmithIdPassed parse n then checkIdList parse rest else false

/-- `_calculate_reward_swesmith` after log parsing: reward from the parsed
mapping and the raw `FAIL_TO_PASS` / `PASS_TO_PASS` identifier lists.
The source first strips every identifier (`fail2pass` / `pass2pass`),
returns `0.0` on an empty parsed mapping, then runs the fail-to-pass loop
followed by the pass-to-pass loop, each returning `0.0` early on the
first bad identifier, and finally returns `1.0`. -/
def rewardSwesmith (parse : List (String × String))
    (failToPass passToPass : List String) : ℚ :=
  if parse.isEmpty then 0
  else if checkIdList parse (failToPass.map stripTestId) then
    if checkIdList parse (passToPass.map stripTestId) then 1 else 0
  else 0

/-- The claim's resolution relation, written from the specification: an
identifier resolves to `PASSED` when it is a key of the parsed mapping
with status `PASSED`, or, when absent, when the first parsed key that
contains it as a substring carries status `PASSED`. -/
def resolvesToPassed (parse : List (String × String)) (name : String) : Bool :=
  match parse.lookup name with
  | some st => st == "PASSED"
  | none =>
    match parse.find? (fun p => listContains name.data p.1.data) with
    | none => false
    | some p => p.2 == "PASSED"

theorem lookup_eq_of_mem_of_nodupKeys {l : List (String × String)} {p : String × String}
    (hnd : (l.map Prod.fst).Nodup) (hm : p ∈ l) : l.lookup p.1 = some p.2 := by
  induction l with
  | nil => cases hm
  | cons x xs ih =>
    rcases List.mem_cons.mp hm with rfl | hm2
    · simp [List.lookup]
    · have hx : x.1 ≠ p.1 := by
        intro hcontra
        have : p.1 ∈ xs.map Prod.fst := List.mem_map_of_mem Prod.fst hm2
        rw [← hcontra] at this
        exact (List.nodup_cons.mp (by simpa using hnd)).1 this
      have hb : (p.1 == x.1) = false := beq_eq_false_iff_ne.mpr (Ne.symm hx)
      have hrec := ih (List.nodup_cons.mp (by simpa using hnd)).2 hm2
      simpa [List.lookup, hb] using hrec

theorem swesmithIdPassed_eq_resolves (parse : List (String × String))
    (hnd : (parse.map Prod.fst).Nodup) (name : String) :
    swesmithIdPassed parse name = resolvesToPassed parse name := by
  unfold swesmithIdPassed resolvesToPassed
  cases parse.lookup name with
  | some st => rfl
  | none =>
    cases hf : parse.find? (fun p => listContains name.data p.1.data) with
    | none => rfl
    | some p =>
      have hm : p ∈ parse := List.mem_of_find?_eq_some hf
      simp [lookup_eq_of_mem_of_nodupKeys hnd hm]

theorem checkIdList_eq_true_iff (parse : List (String × String)) (l : List String) :
    checkIdList parse l = true ↔ ∀ n ∈ l, swesmithIdPassed parse n = true := by
  induction l with
  | nil => simp [checkIdList]
  | cons n rest ih =>
    by_cases h : swesmithIdPassed parse n = true
    · simp [checkIdList, h, ih]
    · simp only [checkIdList, h, if_false, Bool.false_eq_true, false_iff]
      intro hcontra
      exact absurd (hcontra n (List.mem_cons_self n rest)) h

/-- **C2.** For the smith-generated reward strategy, on any parsed test
mapping (a dict, so its keys are unique) and any expected fail-to-pass /
pass-to-pass identifier lists, the reward is one of `0.0`/`1.0`, and it is
`1.0` exactly when the parsed mapping is non-empty and every expected
identifier — stripped of its file-path prefix before `"::"` — resolves,
by direct lookup or, when absent, by substring match against the parsed
keys, to status `PASSED`; hence any unresolvable or non-`PASSED`
identifier (or an empty parsed mapping) forces `0.0`. -/
theorem swesmith_reward_contract (parse : List (String × String))
    (failToPass passToPass : List String)
    (hnd : (parse.map Prod.fst).Nodup) :
    (rewardSwesmith parse failToPass passToPass = 0 ∨
      rewardSwesmith parse failToPass passToPass = 1) ∧
    (rewardSwesmith parse failToPass passToPass = 1 ↔
      (parse ≠ [] ∧
        ∀ name ∈ failToPass.map stripTestId ++ passToPass.map stripTestId,
          resolvesToPassed parse name = true)) := by
  have hres : ∀ n, swesmithIdPassed parse n = resolvesToPassed parse n :=
    swesmithIdPassed_eq_resolves parse hnd
  constructor
  · unfold rewardSwesmith
    split
    · exact Or.inl rfl
    · split
      · split
        · exact Or.inr rfl
        · exact Or.inl rfl
      · exact Or.inl rfl
  · by_cases hp : parse.isEmpty
    · have hnil : parse = [] := List.isEmpty_iff.mp hp
      simp [rewardSwesmith, hp, hnil]
    · have hne : parse ≠ [] := fun hcontra => hp (by simp [hcontra])
      by_cases h1 : checkIdList parse (failToPass.map stripTestId) = true
      · by_cases h2 : checkIdList parse (passToPass.map stripTestId) = true
        · have hall : ∀ name ∈ failToPass.map stripTestId ++ passToPass.map stripTestId,
              resolvesToPassed parse name = true := by
            intro name hmem
            rcases List.mem_append.mp hmem with hm | hm
            · rw [← hres]; exact (checkIdList_eq_true_iff parse _).mp h1 name hm
            · rw [← hres]; exact (checkIdList_eq_true_iff parse _).mp h2 name hm
          simp only [rewardSwesmith, hp, if_false, h1, if_true, h2]
          exact ⟨fun _ => ⟨hne, hall⟩, fun _ => rfl⟩
        · have hbad : ¬ ∀ name ∈ failToPass.map stripTestId ++ passToPass.map stripTestId,
              resolvesToPassed parse name = true := by
            intro hall
            apply h2
            rw [checkIdList_eq_true_iff]
            intro n hm
            rw [hres]
            exact hall n (List.mem_append.mpr (Or.inr hm))
          simp only [rewardSwesmith, hp, if_false, h1, if_true, h2]
          constructor
          · intro h0; exact absurd h0 (by norm_num)
          · rintro ⟨_, hall⟩; exact absurd hall hbad
      · have hbad : ¬ ∀ name ∈ failToPass.map stripTestId ++ passToPass.map stripTestId,
            resolvesToPassed parse name = true := by
          intro hall
          apply h1
          rw [checkIdList_eq_true_iff]
          intro n hm
          rw [hres]
          exact hall n (List.mem_append.mpr (Or.inl hm))
        simp only [rewardSwesmith, hp, if_false, h1]
        constructor
        · intro h0; exact absurd h0 (by norm_num)
        · rintro ⟨_, hall⟩; exact absurd hall hbad

/-- **C2, witness.** A concrete instantiation: parsed mapping
`{"mod.t1": "PASSED"}` with fail-to-pass `["tests/test_a.py::t1"]` — the
stripped identifier `"t1"` resolves by substring fallback to `PASSED`,
so the reward is `1.0`. -/
theorem swesmith_reward_contract_witness :
    (rewardSwesmith [("mod.t1", "PASSED")] ["tests/test_a.py::t1"] [] = 0 ∨
      rewardSwesmith [("mod.t1", "PASSED")] ["tests/test_a.py::t1"] [] = 1) ∧
    (rewardSwesmith [("mod.t1", "PASSED")] ["tests/test_a.py::t1"] [] = 1 ↔
      (([("mod.t1", "PASSED")] : List (String × String)) ≠ [] ∧
        ∀ name ∈ (["tests/test_a.py::t1"] : List String).map stripTestId ++
            ([] : List String).map stripTestId,
          resolvesToPassed [("mod.t1", "PASSED")] name = true)) :=
  swesmith_reward_contract [("mod.t1", "PASSED")] ["tests/test_a.py::t1"] [] (by decide)

/-! ## Command execution — `run` / `demux_run`

`DockerRuntime.run` (`docker.py:391-439`, the Docker branch; the
Kubernetes branch delegates to `_run_kubernetes`, `docker.py:315-389`)
and `ApptainerRuntime.run` (`apptainer.py:372-439`).  The interaction
with the control plane — the single-worker executor, the exec call, and
output decoding — is modelled as one abstract outcome per call; the
classification logic downstream of it is translated verbatim. -/

/-- `f"The command took too long to execute (>{timeout}s)"`. -/
def tooLongMsg (timeout : Nat) : String :=
  "The command took too long to execute (>" ++ toString timeout ++ "s)"

/-- Outcome of the Docker exec call: a decoded exit code and combined
output, an outer-deadline `concurrent.futures.TimeoutError`, or any other
exception (transport failure), carrying its `repr`. -/
inductive DockerExec where
  | exited (code : Int) (output : String)
  | futureTimeout
  | raised (msg : String)

/-- `DockerRuntime.run`, Docker branch: exit-code classification and
output normalization. -/
def dockerRun (timeout : Nat) (res : DockerExec) : String × String :=
  match res with
  | .exited code output =>
    if code = 124 then (tooLongMsg timeout, "-1")
    else if code ≠ 0 then (output, "Error: Exit code " ++ toString code)
    else (stripAnsi output, toString code)
  | .futureTimeout => (tooLongMsg timeout, "-1")
  | .raised msg => ("Error: " ++ msg, "-1")

/-- Outcome of the Kubernetes exec stream: a (possibly missing) return
code with combined output, an outer-deadline timeout, a Kubernetes
`ApiException`, or any other exception. -/
inductive K8sExec where
  | exited (code : Option Int) (output : String)
  | futureTimeout
  | apiError (msg : String)
  | raised (msg : String)

/-- `DockerRuntime._run_kubernetes`: exit-code classification and output
normalization (a missing return code is reported as `"-1"`). -/
def kubernetesRun (timeout : Nat) (res : K8sExec) : String × String :=
  match res with
  | .exited none output => (output, "-1")
  | .exited (some code) output =>
    if code = 124 then (tooLongMsg timeout, "-1")
    else if code ≠ 0 then (output, "Error: Exit code " ++ toString code)
    else (stripAnsi output, toString code)
  | .futureTimeout => (tooLongMsg timeout, "-1")
  | .apiError msg => ("Error executing command in pod: " ++ msg, "-1")
  | .raised msg => ("Error: " ++ msg, "-1")

/-- Outcome of the Apptainer `subprocess.run` call: a return code with
`stdout + stderr`, an outer-deadline `concurrent.futures.TimeoutError`, a
`subprocess.TimeoutExpired`, or any other exception. -/
inductive ApptainerExec where
  | exited (code : Int) (output : String)
  | futureTimeout
  | subprocessTimeout
  | raised (msg : String)

/-- `ApptainerRuntime.run`: exit-code classification and output
normalization. -/
def apptainerRun (timeout : Nat) (res : ApptainerExec) : String × String :=
  match res with
  | .exited code output =>
    if code = 124 then (tooLongMsg timeout, "-1")
    else if code ≠ 0 then (output, "Error: Exit code " ++ toString code)
    else (stripAnsi output, toString code)
  | .futureTimeout => (tooLongMsg timeout, "-1")
  | .subprocessTimeout => (tooLongMsg timeout, "-1")
  | .raised msg => ("Error: " ++ msg, "-1")

/-- Outcome of the Docker demultiplexed exec call. -/
inductive DockerDemuxExec where
  | exited (code : Int) (stdout stderr : String)
  | raised (msg : String)

/-- `DockerRuntime.demux_run` (`docker.py:441-473`): no timeout branch and
no ANSI/carriage-return normalization; every exception (including an
outer-deadline timeout) is caught by the generic handler. -/
def dockerDemuxRun (res : DockerDemuxExec) : String × String × String :=
  match res with
  | .exited code so se =>
    if code ≠ 0 then (so, se, "Error: Exit code " ++ toString code)
    else (so, se, toString code)
  | .raised msg => ("Error: " ++ msg, "Error: " ++ msg, "-1")

/-- Outcome of the Apptainer demultiplexed `subprocess.run` call. -/
inductive ApptainerDemuxExec where
  | exited (code : Int) (stdout stderr : String)
  | raised (msg : String)

/-- `ApptainerRuntime.demux_run` (`apptainer.py:441-482`): both streams
are normalized for every exit code; the exit code is `str(returncode)`
unconditionally (a nonzero code is only logged). -/
def apptainerDemuxRun (res : ApptainerDemuxExec) : String × String × String :=
  match res with
  | .exited code so se => (stripAnsi so, stripAnsi se, toString code)
  | .raised msg => ("Error: " ++ msg, "Error: " ++ msg, "-1")

/-- Is `s` the decimal representation of some number in `0..255`? -/
def isDecimal0to255 (s : String) : Bool :=
  (List.range 256).any (fun n => s == toString n)

/-- **C3.** For every command execution outcome of the three adapters, the
exit-code component of `run` is exactly one of: a decimal string in
`"0".."255"` for a clean zero exit (namely `"0"`), `"-1"` for an inner
`timeout`-command exit (124), an outer executor deadline, a missing
return code, or a transport exception, and `"Error: Exit code <n>"` for a
nonzero non-timeout exit; every transport exception is converted to the
pair `("Error: <exception>", "-1")` rather than propagated — the
classification is total over all modelled outcomes. -/
theorem run_exit_code_contract (t : Nat) (code : Int) (out msg : String)
    (h0 : code ≠ 0) (h124 : code ≠ 124) :
    (dockerRun t (.exited 0 out)).2 = "0" ∧
    isDecimal0to255 "0" = true ∧
    (dockerRun t (.exited 124 out)).2 = "-1" ∧
    (dockerRun t (.exited code out)) = (out, "Error: Exit code " ++ toString code) ∧
    dockerRun t .futureTimeout = (tooLongMsg t, "-1") ∧
    dockerRun t (.raised msg) = ("Error: " ++ msg, "-1") ∧
    (kubernetesRun t (.exited none out)).2 = "-1" ∧
    (kubernetesRun t (.exited (some 0) out)).2 = "0" ∧
    (kubernetesRun t (.exited (some 124) out)).2 = "-1" ∧
    (kubernetesRun t (.exited (some code) out)) =
      (out, "Error: Exit code " ++ toString code) ∧
    kubernetesRun t .futureTimeout = (tooLongMsg t, "-1") ∧
    kubernetesRun t (.apiError msg) = ("Error executing command in pod: " ++ msg, "-1") ∧
    kubernetesRun t (.raised msg) = ("Error: " ++ msg, "-1") ∧
    (apptainerRun t (.exited 0 out)).2 = "0" ∧
    (apptainerRun t (.exited 124 out)).2 = "-1" ∧
    (apptainerRun t (.exited code out)) = (out, "Error: Exit code " ++ toString code) ∧
    apptainerRun t .futureTimeout = (tooLongMsg t, "-1") ∧
    apptainerRun t .subprocessTimeout = (tooLongMsg t, "-1") ∧
    apptainerRun t (.raised msg) = ("Error: " ++ msg, "-1") := by
  refine ⟨rfl, by decide, rfl, ?_, rfl, rfl, rfl, rfl, rfl, ?_, rfl, rfl, rfl,
    rfl, rfl, ?_, rfl, rfl, rfl⟩ <;>
    simp [dockerRun, kubernetesRun, apptainerRun, h0, h124]

/-- **C3, witness.** The contract instantiated at timeout `300`, exit code
`7`, output `"out"` and exception text `"boom"`. -/
theorem run_exit_code_contract_witness :
    (dockerRun 300 (.exited 0 "out")).2 = "0" ∧
    isDecimal0to255 "0" = true ∧
    (dockerRun 300 (.exited 124 "out")).2 = "-1" ∧
    (dockerRun 300 (.exited 7 "out")) = ("out", "Error: Exit code " ++ toString (7 : Int)) ∧
    dockerRun 300 .futureTimeout = (tooLongMsg 300, "-1") ∧
    dockerRun 300 (.raised "boom") = ("Error: " ++ "boom", "-1") ∧
    (kubernetesRun 300 (.exited none "out")).2 = "-1" ∧
    (kubernetesRun 300 (.exited (some 0) "out")).2 = "0" ∧
    (kubernetesRun 300 (.exited (some 124) "out")).2 = "-1" ∧
    (kubernetesRun 300 (.exited (some 7) "out")) =
      ("out", "Error: Exit code " ++ toString (7 : Int)) ∧
    kubernetesRun 300 .futureTimeout = (tooLongMsg 300, "-1") ∧
    kubernetesRun 300 (.apiError "boom") = ("Error executing command in pod: " ++ "boom", "-1") ∧
    kubernetesRun 300 (.raised "boom") = ("Error: " ++ "boom", "-1") ∧
    (apptainerRun 300 (.exited 0 "out")).2 = "0" ∧
    (apptainerRun 300 (.exited 124 "out")).2 = "-1" ∧
    (apptainerRun 300 (.exited 7 "out")) = ("out", "Error: Exit code " ++ toString (7 : Int)) ∧
    apptainerRun 300 .futureTimeout = (tooLongMsg 300, "-1") ∧
    apptainerRun 300 .subprocessTimeout = (tooLongMsg 300, "-1") ∧
    apptainerRun 300 (.raised "boom") = ("Error: " ++ "boom", "-1") :=
  run_exit_code_contract 300 7 "out" "boom" (by decide) (by decide)

/-- **C5, counterexample to the claim as stated.**  The normalization is
applied only on the zero-exit path of `run`: a nonzero exit returns the
raw output unchanged, so `run` on exit code `1` with output `"a\rb"`
returns a string containing a carriage return; and Docker's `demux_run`
never normalizes, so even a clean zero exit with stdout `"x\ry"` returns
a carriage return. -/
theorem run_strip_claim_counterexample :
    dockerRun 300 (.exited 1 "a\rb") = ("a\rb", "Error: Exit code " ++ toString (1 : Int)) ∧
    containsCR "a\rb" = true ∧
    dockerDemuxRun (.exited 0 "x\ry" "") = ("x\ry", "", "0") ∧
    containsCR "x\ry" = true := by
  refine ⟨by decide, by decide, by decide, by decide⟩

/-- **C5 (amended).** The ANSI-SGR / carriage-return substitution is
applied exactly where the source applies it: on the zero-exit path of
`run` in all three adapters (whose returned output therefore contains no
carriage return), and on both streams of Apptainer's `demux_run` for
every exit code; a nonzero non-timeout exit of `run` and both streams of
Docker's `demux_run` are returned unchanged, whatever they contain. -/
theorem run_output_normalization (t : Nat) (code : Int) (out so se : String)
    (h0 : code ≠ 0) (h124 : code ≠ 124) :
    (dockerRun t (.exited 0 out)).1 = stripAnsi out ∧
    containsCR ((dockerRun t (.exited 0 out)).1) = false ∧
    (kubernetesRun t (.exited (some 0) out)).1 = stripAnsi out ∧
    containsCR ((kubernetesRun t (.exited (some 0) out)).1) = false ∧
    (apptainerRun t (.exited 0 out)).1 = stripAnsi out ∧
    containsCR ((apptainerRun t (.exited 0 out)).1) = false ∧
    (dockerRun t (.exited code out)).1 = out ∧
    (kubernetesRun t (.exited (some code) out)).1 = out ∧
    (apptainerRun t (.exited code out)).1 = out ∧
    (dockerDemuxRun (.exited code so se)).1 = so ∧
    (dockerDemuxRun (.exited code so se)).2.1 = se ∧
    apptainerDemuxRun (.exited code so se) = (stripAnsi so, stripAnsi se, toString code) ∧
    containsCR ((apptainerDemuxRun (.exited code so se)).1) = false ∧
    containsCR ((apptainerDemuxRun (.exited code so se)).2.1) = false := by
  refine ⟨rfl, containsCR_stripAnsi out, rfl, containsCR_stripAnsi out, rfl,
    containsCR_stripAnsi out, ?_, ?_, ?_, ?_, ?_, rfl,
    containsCR_stripAnsi so, containsCR_stripAnsi se⟩ <;>
    simp [dockerRun, kubernetesRun, apptainerRun, dockerDemuxRun, h0, h124]

/-- **C5, witness.** The normalization facts instantiated at timeout
`300`, exit code `2`, and outputs carrying a colored carriage-return
payload. -/
theorem run_output_normalization_witness :
    (dockerRun 300 (.exited 0 "\x1b[31mred\rx")).1 = stripAnsi "\x1b[31mred\rx" ∧
    containsCR ((dockerRun 300 (.exited 0 "\x1b[31mred\rx")).1) = false ∧
    (kubernetesRun 300 (.exited (some 0) "\x1b[31mred\rx")).1 = stripAnsi "\x1b[31mred\rx" ∧
    containsCR ((kubernetesRun 300 (.exited (some 0) "\x1b[31mred\rx")).1) = false ∧
    (apptainerRun 300 (.exited 0 "\x1b[31mred\rx")).1 = stripAnsi "\x1b[31mred\rx" ∧
    containsCR ((apptainerRun 300 (.exited 0 "\x1b[31mred\rx")).1) = false ∧
    (dockerRun 300 (.exited 2 "\x1b[31mred\rx")).1 = "\x1b[31mred\rx" ∧
    (kubernetesRun 300 (.exited (some 2) "\x1b[31mred\rx")).1 = "\x1b[31mred\rx" ∧
    (apptainerRun 300 (.exited 2 "\x1b[31mred\rx")).1 = "\x1b[31mred\rx" ∧
    (dockerDemuxRun (.exited 2 "a\rb" "c\rd")).1 = "a\rb" ∧
    (dockerDemuxRun (.exited 2 "a\rb" "c\rd")).2.1 = "c\rd" ∧
    apptainerDemuxRun (.exited 2 "a\rb" "c\rd") =
      (stripAnsi "a\rb", stripAnsi "c\rd", toString (2 : Int)) ∧
    containsCR ((apptainerDemuxRun (.exited 2 "a\rb" "c\rd")).1) = false ∧
    containsCR ((apptainerDemuxRun (.exited 2 "a\rb" "c\rd")).2.1) = false :=
  run_output_normalization 300 2 "\x1b[31mred\rx" "a\rb" "c\rd" (by decide) (by decide)

/-! ## Reward dispatch — `_calculate_reward` (`base.py:419-425`)

The three strategies return Python values of different static types:
`_calculate_reward_r2e` returns a float or a `(float, str)` pair,
`_calculate_reward_swebench` returns `int(success)` or a `(bool, str)`
pair, and `_calculate_reward_swesmith` accepts `get_test_output` but
never consults it.  `PyVal` records the static type of the returned
Python value. -/

/-- A Python value as returned by the reward strategies, tagged with its
runtime type. -/
inductive PyVal where
  | float (q : ℚ)
  | int (n : ℤ)
  | bool (b : Bool)
  | str (s : String)
  | pair (a b : PyVal)
deriving DecidableEq

/-- Is the value a 2-tuple? -/
def isPyPair : PyVal → Bool
  | .pair _ _ => true
  | _ => false

theorem rewardR2e_zero_or_one (parse expected : List (String × String)) :
    rewardR2e parse expected = 0 ∨ rewardR2e parse expected = 1 := by
  simp only [rewardR2e]
  split
  · exact Or.inl rfl
  · split
    · exact Or.inr rfl
    · exact Or.inl rfl

theorem rewardSwesmith_zero_or_one (parse : List (String × String))
    (failToPass passToPass : List String) :
    rewardSwesmith parse failToPass passToPass = 0 ∨
      rewardSwesmith parse failToPass passToPass = 1 := by
  unfold rewardSwesmith
  split
  · exact Or.inl rfl
  · split
    · split
      · exact Or.inr rfl
      · exact Or.inl rfl
    · exact Or.inl rfl

/-- `_calculate_reward_swebench` (`base.py:370-384`): the external grading
collaborator's verdict (`get_resolution_status(report) ==
ResolvedStatus.FULL.value`) is abstracted as `success`; with output
requested the strategy returns the pair `(success, out)` — a bool, not a
float — otherwise `int(success)`. -/
def calculateRewardSwebench (success : Bool) (out : String) (getTestOutput : Bool) : PyVal :=
  if getTestOutput then .pair (.bool success) (.str out)
  else .int (if success then 1 else 0)

/-- `_calculate_reward_swesmith` as a Python value: the `get_test_output`
parameter is accepted but never used — the bare float reward is returned
in both cases. -/
def calculateRewardSwesmithVal (parse : List (String × String))
    (failToPass passToPass : List String) (getTestOutput : Bool) : PyVal :=
  .float (rewardSwesmith parse failToPass passToPass)

/-- `_calculate_reward_r2e` as a Python value: `(reward, output)` when
output is requested, else the bare float reward. -/
def calculateRewardR2eVal (parse expected : List (String × String))
    (out : String) (getTestOutput : Bool) : PyVal :=
  if getTestOutput then .pair (.float (rewardR2e parse expected)) (.str out)
  else .float (rewardR2e parse expected)

/-- The three environment modes, derived from the image reference
(`swebench_verified` is tested first, then `swesmith`, else default). -/
inductive EnvMode where
  | swebenchVerified
  | swesmith
  | r2eDefault
deriving DecidableEq

/-- `_calculate_reward` (`base.py:419-425`): mode dispatch, forwarding
`get_test_output` to each strategy. -/
def calculateReward (mode : EnvMode) (success : Bool) (out : String)
    (parse expected : List (String × String))
    (failToPass passToPass : List String) (getTestOutput : Bool) : PyVal :=
  match mode with
  | .swebenchVerified => calculateRewardSwebench success out getTestOutput
  | .swesmith => calculateRewardSwesmithVal parse failToPass passToPass getTestOutput
  | .r2eDefault => calculateRewardR2eVal parse expected out getTestOutput

/-- The actual return shape of `_calculate_reward`, by mode and output
request: default mode honours the claim (`float 0.0/1.0`, or that reward
paired with the raw output); verified-benchmark mode returns `int 0/1`
without output, and a `(bool, str)` pair with output; smith-generated
mode always returns the bare float `0.0/1.0`, ignoring the request. -/
def rewardShape (mode : EnvMode) (success : Bool) (out : String)
    (getTestOutput : Bool) (v : PyVal) : Prop :=
  match mode, getTestOutput with
  | .r2eDefault, false => v = .float 0 ∨ v = .float 1
  | .r2eDefault, true =>
    v = .pair (.float 0) (.str out) ∨ v = .pair (.float 1) (.str out)
  | .swesmith, _ => v = .float 0 ∨ v = .float 1
  | .swebenchVerified, false => v = .int 0 ∨ v = .int 1
  | .swebenchVerified, true => v = .pair (.bool success) (.str out)

/-- **C4, counterexample to the claim as stated.**  In smith-generated
mode with output requested, `_calculate_reward` returns a bare float, not
the `(reward, rawOutput)` pair; and in verified-benchmark mode without
output it returns the int `0`/`1`, which is not the float `0.0`/`1.0`. -/
theorem calculate_reward_claim_counterexample :
    isPyPair (calculateReward .swesmith false "raw" [("a", "PASSED")] [] [] [] true) = false ∧
    calculateReward .swebenchVerified false "" [] [] [] [] false = .int 0 ∧
    PyVal.int 0 ≠ .float 0 ∧ PyVal.int 0 ≠ .float 1 := by
  refine ⟨by decide, by decide, by decide, by decide⟩

/-- **C4 (amended).** `_calculate_reward` always returns a value of the
shape recorded by `rewardShape`: in default mode exactly the float
`0.0`/`1.0`, or that reward paired with the raw output when requested; in
smith-generated mode always the bare float `0.0`/`1.0` (the output
request is ignored); in verified-benchmark mode `int(success)` without
output and the `(bool, str)` pair with output. -/
theorem calculate_reward_shape (mode : EnvMode) (success : Bool) (out : String)
    (parse expected : List (String × String))
    (failToPass passToPass : List String) (getTestOutput : Bool) :
    rewardShape mode success out getTestOutput
      (calculateReward mode success out parse expected failToPass passToPass getTestOutput) := by
  cases mode with
  | swebenchVerified =>
    cases getTestOutput with
    | false =>
      cases success <;>
        simp [rewardShape, calculateReward, calculateRewardSwebench]
    | true => simp [rewardShape, calculateReward, calculateRewardSwebench]
  | swesmith =>
    cases getTestOutput <;>
      · rcases rewardSwesmith_zero_or_one parse failToPass passToPass with h | h <;>
          simp [rewardShape, calculateReward, calculateRewardSwesmithVal, h]
  | r2eDefault =>
    cases getTestOutput <;>
      · rcases rewardR2e_zero_or_one parse expected with h | h <;>
          simp [rewardShape, calculateReward, calculateRewardR2eVal, h]

/-! ## Kubernetes pod creation retry — `_start_kubernetes_pod`
(`docker.py:143-168`)

The creation attempts are modelled by an oracle `results` giving the
outcome of `create_namespaced_pod` on each attempt number; the loop
records its `time.sleep(backoff)` calls. -/

/-- Outcome of one `create_namespaced_pod` call. -/
inductive CreateResult where
  | success
  | apiError (status : Int)

/-- Result of the creation loop: the pod was created on some attempt, a
non-transient `ApiException` was re-raised on some attempt, or the
`for ... else` clause raised `RuntimeError` after the retry limit. -/
inductive PodOutcome where
  | created (attempt : Nat)
  | raisedApi (status : Int) (attempt : Nat)
  | raisedRetryLimit
deriving DecidableEq

/-- `e.status in (409, 429, 500, 503)`. -/
def isTransientStatus (s : Int) : Bool :=
  s == 409 || s == 429 || s == 500 || s == 503

/-- `max_retries = 5`. -/
def maxRetries : Nat := 5

/-- The attempt on which the loop stopped (`maxRetries + 1` when the
retry limit was exhausted). -/
def outcomeAttempt : PodOutcome → Nat
  | .created a => a
  | .raisedApi _ a => a
  | .raisedRetryLimit => maxRetries + 1

/-- The `for attempt in range(1, max_retries + 1)` creation loop
(`backoff` starts at 5; after each transient failure the loop sleeps
`backoff` seconds and sets `backoff = min(backoff * 2, 60)`; a
non-transient `ApiException` is re-raised at once; the `for ... else`
clause raises after the limit).  The second component records the
performed sleeps in order. -/
def createPodLoop (results : Nat → CreateResult) (attempt backoff : Nat)
    (sleeps : List Nat) : PodOutcome × List Nat :=
  if _h : maxRetries < attempt then (.raisedRetryLimit, sleeps)
  else
    match results attempt with
    | .success => (.created attempt, sleeps)
    | .apiError s =>
      if isTransientStatus s then
        createPodLoop results (attempt + 1) (min (backoff * 2) 60) (sleeps ++ [backoff])
      else (.raisedApi s attempt, sleeps)
termination_by maxRetries + 1 - attempt
decreasing_by omega

/-- `_start_kubernetes_pod`'s creation phase: attempts start at 1 with
backoff 5 and no sleeps performed. -/
def createPod (results : Nat → CreateResult) : PodOutcome × List Nat :=
  createPodLoop results 1 5 []

/-- The sequence of backoff intervals reachable from state `b` in `k`
steps: `b, min(2b, 60), …`. -/
def backoffFuture (b : Nat) : Nat → List Nat
  | 0 => []
  | k + 1 => b :: backoffFuture (min (b * 2) 60) k

theorem createPodLoop_sleeps_prefix (results : Nat → CreateResult) :
    ∀ k attempt b sleeps, attempt + k = maxRetries + 1 →
      ∃ e, (createPodLoop results attempt b sleeps).2 = sleeps ++ e ∧
        e <+: backoffFuture b k := by
  intro k
  induction k with
  | zero =>
    intro attempt b sleeps hk
    rw [createPodLoop]
    have : maxRetries < attempt := by omega
    simp [this, backoffFuture]
  | succ k ih =>
    intro attempt b sleeps hk
    rw [createPodLoop]
    have hlt : ¬ maxRetries < attempt := by omega
    simp only [hlt, dite_false]
    cases results attempt with
    | success =>
      exact ⟨[], by simp, List.nil_prefix⟩
    | apiError s =>
      by_cases ht : isTransientStatus s = true
      · simp only [ht, if_true]
        obtain ⟨e, he, hpre⟩ := ih (attempt + 1) (min (b * 2) 60) (sleeps ++ [b]) (by omega)
        obtain ⟨tail, htail⟩ := hpre
        refine ⟨b :: e, by simpa [List.append_assoc] using he, ⟨tail, ?_⟩⟩
        simp only [backoffFuture, List.cons_append, htail]
      · simp only [eq_false_of_ne_true ht, if_false]
        exact ⟨[], by simp, List.nil_prefix⟩

theorem createPodLoop_transient_before (results : Nat → CreateResult) :
    ∀ k attempt b sleeps, attempt + k = maxRetries + 1 →
      ∀ out sl, createPodLoop results attempt b sleeps = (out, sl) →
        ∀ j, attempt ≤ j → j < outcomeAttempt out →
          ∃ s, results j = .apiError s ∧ isTransientStatus s = true := by
  intro k
  induction k with
  | zero =>
    intro attempt b sleeps hk out sl hloop j hj1 hj2
    rw [createPodLoop] at hloop
    have : maxRetries < attempt := by omega
    simp only [this, dite_true] at hloop
    cases hloop
    simp [outcomeAttempt] at hj2
    omega
  | succ k ih =>
    intro attempt b sleeps hk out sl hloop j hj1 hj2
    rw [createPodLoop] at hloop
    have hlt : ¬ maxRetries < attempt := by omega
    simp only [hlt, dite_false] at hloop
    cases hres : results attempt with
    | success =>
      rw [hres] at hloop
      cases hloop
      simp [outcomeAttempt] at hj2
      omega
    | apiError s =>
      rw [hres] at hloop
      by_cases ht : isTransientStatus s = true
      · simp only [ht, if_true] at hloop
        rcases Nat.eq_or_lt_of_le hj1 with rfl | hj3
        · exact ⟨s, hres, ht⟩
        · exact ih (attempt + 1) (min (b * 2) 60) (sleeps ++ [b]) (by omega)
            out sl hloop j hj3 hj2
      · simp only [eq_false_of_ne_true ht, if_false] at hloop
        cases hloop
        simp [outcomeAttempt] at hj2
        omega

/-- **C6.** Kubernetes pod creation retries only on the transient API
status codes 409, 429, 500 and 503, sleeping with exponential backoff
capped at 60 seconds (the performed sleeps are always a prefix of
`[5, 10, 20, 40, 60]`), for at most the fixed bound of 5 attempts,
raising `RuntimeError` after the bound is exhausted; a non-transient
status code on the first attempt (e.g. 400) raises the `ApiException`
immediately, with no retry and no backoff sleep; and every attempt made
before the final one failed with a transient status. -/
theorem k8s_pod_creation_retry (results : Nat → CreateResult) :
    (∀ s : Int, results 1 = .apiError s → isTransientStatus s = false →
      createPod results = (.raisedApi s 1, [])) ∧
    ((∀ j, 1 ≤ j → j ≤ maxRetries →
        ∃ s, results j = .apiError s ∧ isTransientStatus s = true) →
      createPod results = (.raisedRetryLimit, [5, 10, 20, 40, 60])) ∧
    ((createPod results).2 <+: [5, 10, 20, 40, 60]) ∧
    (∀ out sl, createPod results = (out, sl) →
      ∀ j, 1 ≤ j → j < outcomeAttempt out →
        ∃ s, results j = .apiError s ∧ isTransientStatus s = true) := by
  refine ⟨?_, ?_, ?_, ?_⟩
  · intro s hs ht
    rw [createPod, createPodLoop]
    simp [maxRetries, hs, ht]
  · intro h
    obtain ⟨s1, hs1, ht1⟩ := h 1 (by omega) (by simp [maxRetries])
    obtain ⟨s2, hs2, ht2⟩ := h 2 (by omega) (by simp [maxRetries])
    obtain ⟨s3, hs3, ht3⟩ := h 3 (by omega) (by simp [maxRetries])
    obtain ⟨s4, hs4, ht4⟩ := h 4 (by omega) (by simp [maxRetries])
    obtain ⟨s5, hs5, ht5⟩ := h 5 (by omega) (by simp [maxRetries])
    rw [createPod]
    rw [createPodLoop]; simp [maxRetries, hs1, ht1]
    rw [createPodLoop]; simp [maxRetries, hs2, ht2]
    rw [createPodLoop]; simp [maxRetries, hs3, ht3]
    rw [createPodLoop]; simp [maxRetries, hs4, ht4]
    rw [createPodLoop]; simp [maxRetries, hs5, ht5]
    rw [createPodLoop]; simp [maxRetries]
  · obtain ⟨e, he, hpre⟩ :=
      createPodLoop_sleeps_prefix results 5 1 5 [] (by simp [maxRetries])
    rw [createPod, he]
    simpa [backoffFuture] using hpre
  · intro out sl hloop j hj1 hj2
    exact createPodLoop_transient_before results 5 1 5 [] (by simp [maxRetries])
      out sl hloop j hj1 hj2

/-- **C6, witness.** A 400 on the first attempt raises immediately with no
sleeps; all-transient 503 responses exhaust the five attempts with the
backoff sequence `[5, 10, 20, 40, 60]` and raise the retry-limit error. -/
theorem k8s_pod_creation_retry_witness :
    createPod (fun _ => .apiError 400) = (.raisedApi 400 1, []) ∧
    createPod (fun _ => .apiError 503) = (.raisedRetryLimit, [5, 10, 20, 40, 60]) :=
  ⟨(k8s_pod_creation_retry (fun _ => .apiError 400)).1 400 rfl (by decide),
   (k8s_pod_creation_retry (fun _ => .apiError 503)).2.1
     (fun _j _h1 _h2 => ⟨503, rfl, by decide⟩)⟩

/-! ## Apptainer `run_tests` script discovery (`apptainer.py:209-254`)

The adapter's `run` method is the oracle `runCmd` (by C3 it never
raises, so the loop's `except` blocks are dead for it). -/

/-- A single-quote character (the shell probe quotes `exists`). -/
def sq : String := String.mk ['\x27']

/-- `f"test -f {script_path} && echo 'exists'"`. -/
def probeCmd (p : String) : String :=
  "test -f " ++ p ++ " && echo " ++ sq ++ "exists" ++ sq

/-- `f"bash {script_path}"`. -/
def bashCmd (p : String) : String := "bash " ++ p

/-- The five candidate script locations, in source order: the alternate
path, the sandbox root, the temp path, the staging path `/testbed`, and
the repo path. -/
def testScriptLocations (altPath repoPath : String) : List String :=
  [altPath ++ "/run_tests.sh", "/run_tests.sh", "/tmp/run_tests.sh",
   "/testbed/run_tests.sh", repoPath ++ "/run_tests.sh"]

/-- Trace of one `run_tests` call: the returned pair, the candidates
probed (in order), and the script executed, if any. -/
structure RunTestsTrace where
  result : String × String
  probed : List String
  executed : Option String
deriving DecidableEq

/-- The candidate loop of `ApptainerRuntime.run_tests`: each candidate is
probed with `run(f"test -f {p} && echo 'exists'")`; when the probe output
contains `"exists"` the script is run with `run(f"bash {p}")`, its output
is ANSI/CR-normalized, and the loop returns at once; otherwise the next
candidate is tried; when all candidates fail the sentinel pair
`("No test script found in any expected location", "-1")` is returned
without raising. -/
def runTestsLoop (runCmd : String → String × String) : List String → RunTestsTrace
  | [] => ⟨("No test script found in any expected location", "-1"), [], none⟩
  | p :: rest =>
    if listContains "exists".data (runCmd (probeCmd p)).1.data then
      ⟨(stripAnsi (runCmd (bashCmd p)).1, (runCmd (bashCmd p)).2), [p], some p⟩
    else
      let t := runTestsLoop runCmd rest
      ⟨t.result, p :: t.probed, t.executed⟩

/-- `ApptainerRuntime.run_tests` with the adapter's `run` as oracle (the
two debug `ls` invocations before the loop do not affect the result and
are not traced). -/
def apptainerRunTests (runCmd : String → String × String)
    (altPath repoPath : String) : RunTestsTrace :=
  runTestsLoop runCmd (testScriptLocations altPath repoPath)

theorem runTestsLoop_all_fail (runCmd : String → String × String)
    (l : List String)
    (h : ∀ p ∈ l, listContains "exists".data (runCmd (probeCmd p)).1.data = false) :
    runTestsLoop runCmd l =
      ⟨("No test script found in any expected location", "-1"), l, none⟩ := by
  induction l with
  | nil => rfl
  | cons p rest ih =>
    have hp := h p (List.mem_cons_self p rest)
    have hrest := ih fun q hq => h q (List.mem_cons_of_mem p hq)
    simp [runTestsLoop, hp, hrest]

theorem runTestsLoop_first_hit (runCmd : String → String × String) :
    ∀ pre p post,
      (∀ q ∈ pre, listContains "exists".data (runCmd (probeCmd q)).1.data = false) →
      listContains "exists".data (runCmd (probeCmd p)).1.data = true →
      runTestsLoop runCmd (pre ++ p :: post) =
        ⟨(stripAnsi (runCmd (bashCmd p)).1, (runCmd (bashCmd p)).2),
          pre ++ [p], some p⟩ := by
  intro pre
  induction pre with
  | nil =>
    intro p post _ hp
    simp [runTestsLoop, hp]
  | cons q pre ih =>
    intro p post hpre hp
    have hq := hpre q (List.mem_cons_self q pre)
    have hrest := ih p post (fun r hr => hpre r (List.mem_cons_of_mem q hr)) hp
    simp [runTestsLoop, hq, hrest]

/-- **C7.** The Apptainer adapter's `run_tests` probes the five candidate
script paths in the fixed order (alternate path, sandbox root, temp path,
staging path, repo path), each via a shell existence probe before
execution; the first candidate whose probe reports existence is executed
and no later candidate is probed or executed (the probed trace stops at
the hit); if no candidate exists, it returns the sentinel error output
with exit code `"-1"` and does not raise. -/
theorem apptainer_run_tests_contract (runCmd : String → String × String)
    (altPath repoPath : String) :
    (testScriptLocations altPath repoPath).length = 5 ∧
    ((∀ p ∈ testScriptLocations altPath repoPath,
        listContains "exists".data (runCmd (probeCmd p)).1.data = false) →
      apptainerRunTests runCmd altPath repoPath =
        ⟨("No test script found in any expected location", "-1"),
          testScriptLocations altPath repoPath, none⟩) ∧
    (∀ pre p post, testScriptLocations altPath repoPath = pre ++ p :: post →
      (∀ q ∈ pre, listContains "exists".data (runCmd (probeCmd q)).1.data = false) →
      listContains "exists".data (runCmd (probeCmd p)).1.data = true →
      apptainerRunTests runCmd altPath repoPath =
        ⟨(stripAnsi (runCmd (bashCmd p)).1, (runCmd (bashCmd p)).2),
          pre ++ [p], some p⟩) := by
  refine ⟨rfl, ?_, ?_⟩
  · intro h
    exact runTestsLoop_all_fail runCmd _ h
  · intro pre p post hsplit hpre hp
    rw [apptainerRunTests, hsplit]
    exact runTestsLoop_first_hit runCmd pre p post hpre hp

/-- An oracle whose probe reports existence only for the temp-path
candidate `/tmp/run_tests.sh` (the third of the five). -/
def probeOnlyTmp : String → String × String :=
  fun c => if c = probeCmd "/tmp/run_tests.sh" then ("exists", "0") else ("ok", "0")

/-- **C7, witness.** With a script present only at the third candidate
(`/tmp/run_tests.sh`), `run_tests` probes exactly the first three
candidates, executes the third, and never touches the remaining two. -/
theorem apptainer_run_tests_contract_witness :
    apptainerRunTests probeOnlyTmp "/root" "/testbed" =
      ⟨(stripAnsi (probeOnlyTmp (bashCmd "/tmp/run_tests.sh")).1,
        (probeOnlyTmp (bashCmd "/tmp/run_tests.sh")).2),
        ["/root/run_tests.sh", "/run_tests.sh", "/tmp/run_tests.sh"],
        some "/tmp/run_tests.sh"⟩ := by
  have := (apptainer_run_tests_contract probeOnlyTmp "/root" "/testbed").2.2
    ["/root/run_tests.sh", "/run_tests.sh"] "/tmp/run_tests.sh"
    ["/testbed/run_tests.sh", "/testbed/run_tests.sh"]
    (by decide) (by decide) (by decide)
  simpa using this

/-! ## Session reset — `ExecutionEnvironment.reset` (`base.py:427-431`),
`DockerRuntime.reset` (`docker.py:530-535`), and the per-backend
`stop_container` / `start_container` effects on the session's stored
name and handle.

`reset` evaluates `self.container_name` *after* `stop_container()` has
run, and passes it as the `name` argument of `start_container`. -/

/-- The three backends. -/
inductive Backend where
  | docker
  | kubernetes
  | apptainer
deriving DecidableEq

/-- The session attributes `container_name` / `container` (the handle is
identified with the name it addresses) plus whether a sandbox is live. -/
structure SessionState where
  containerName : Option String
  container : Option String
  live : Bool
deriving DecidableEq

/-- `stop_container` per backend: Docker stops and removes the container
object (names untouched); Kubernetes deletes the pod (names untouched);
Apptainer stops the instance and, in its `finally` block
(`apptainer.py:368-370`), sets both `self.container` and
`self.container_name` to `None`. -/
def stopContainer : Backend → SessionState → SessionState
  | .docker, s => { s with live := false }
  | .kubernetes, s => { s with live := false }
  | .apptainer, _ => { containerName := none, container := none, live := false }

/-- `start_container name` per backend: Docker/Kubernetes create (or
reuse) a container/pod addressed by `name` and store the handle, leaving
`container_name` as it was; Apptainer (`apptainer.py:339-340`) stores
`name` into both `container_name` and `container`. -/
def startContainer (b : Backend) (s : SessionState) (name : Option String) : SessionState :=
  match b with
  | .docker => { s with container := name, live := true }
  | .kubernetes => { s with container := name, live := true }
  | .apptainer => { containerName := name, container := name, live := true }

/-- `reset()`: stop, then start with the *current* stored container name;
the second component records the `name` argument that was passed to
`start_container`.  (`DockerRuntime.reset` and the base-class `reset`
are line-identical; the Apptainer adapter inherits the base one.) -/
def resetSession (b : Backend) (s : SessionState) : SessionState × Option String :=
  let s1 := stopContainer b s
  (startContainer b s1 s1.containerName, s1.containerName)

/-- **C8, counterexample to the claim as stated.**  For the Apptainer
backend, `stop_container` clears the stored session name, so `reset` on a
session named `"sess"` passes `None` — not `"sess"` — to
`start_container`, and the restarted sandbox no longer carries the
original session name. -/
theorem reset_claim_counterexample :
    (resetSession .apptainer ⟨some "sess", some "sess", true⟩).2 = none ∧
    (resetSession .apptainer ⟨some "sess", some "sess", true⟩).1.containerName = none ∧
    some "sess" ≠ (none : Option String) := by
  refine ⟨rfl, rfl, by decide⟩

/-- **C8 (amended).** For the Docker and Kubernetes backends, `reset()`
stops the old sandbox and starts the replacement with the Session's
stored container name, which is unchanged across the stop/start pair;
for the Apptainer backend, `stop_container` clears the stored name to
`None` in its `finally` block, so `reset()` passes `None` rather than
the previous session name to `start_container`. -/
theorem reset_session_name (s : SessionState) :
    resetSession .docker s =
      ({ s with container := s.containerName, live := true }, s.containerName) ∧
    resetSession .kubernetes s =
      ({ s with container := s.containerName, live := true }, s.containerName) ∧
    (resetSession .docker s).1.containerName = s.containerName ∧
    (resetSession .kubernetes s).1.containerName = s.containerName ∧
    resetSession .apptainer s = (⟨none, none, true⟩, none) := by
  refine ⟨rfl, rfl, rfl, rfl, rfl⟩

/-! ## Patch application — `apply_patch` / `reverse_patch` / `get_patch`
(`base.py:277-308`)

Both methods write the patch text to a `/tmp` staging file, copy it into
the sandbox, and run a `git apply` invocation through the adapter.
`git` itself is external to the repository; its effect on the working
tree is an oracle with explicit success/failure. -/

/-- `os.path.join("/tmp", f"{container_name}_{uuid}.patch")` as used by
`apply_patch`. -/
def applyPatchPath (containerName uuidStr : String) : String :=
  "/tmp/" ++ containerName ++ "_" ++ uuidStr ++ ".patch"

/-- `os.path.join("/tmp", f"{container_name}_{timestamp}.patch")` as used
by `reverse_patch`. -/
def reversePatchPath (containerName timestamp : String) : String :=
  "/tmp/" ++ containerName ++ "_" ++ timestamp ++ ".patch"

/-- `f"git apply --whitespace=fix /{patch_path}"`. -/
def applyPatchRunCmd (patchPath : String) : String :=
  "git apply --whitespace=fix /" ++ patchPath

/-- `f"git apply -R /{patch_path}"` — note: no `--whitespace` option. -/
def reversePatchRunCmd (patchPath : String) : String :=
  "git apply -R /" ++ patchPath

/-- A working tree: file path → contents. -/
abbrev Tree := List (String × String)

/-- The sandbox's `git`, abstracted: forward application with
`--whitespace=fix`, reverse application, and `git add -A && git diff
--cached` between the committed head and the working tree.  `none` means
the patch did not apply. -/
structure GitOracle where
  applyFix : String → Tree → Option Tree
  applyRev : String → Tree → Option Tree
  diffCached : Tree → Tree → String

/-- The git-visible session state: committed head and working tree. -/
structure WorkState where
  head : Tree
  work : Tree
deriving DecidableEq

/-- `apply_patch`: run `git apply --whitespace=fix` on the staged patch;
on success the working tree is replaced and the adapter reports exit
string `"0"`; on failure the tree is unchanged and a nonzero exit is
reported. -/
def applyPatchOp (g : GitOracle) (patch : String) (s : WorkState) :
    WorkState × String × String :=
  match g.applyFix patch s.work with
  | some w => ({ s with work := w }, ("", "0"))
  | none => (s, ("error: patch failed to apply", "Error: Exit code 1"))

/-- `reverse_patch`: run `git apply -R` on the staged patch. -/
def reversePatchOp (g : GitOracle) (patch : String) (s : WorkState) :
    WorkState × String × String :=
  match g.applyRev patch s.work with
  | some w => ({ s with work := w }, ("", "0"))
  | none => (s, ("error: patch failed to apply", "Error: Exit code 1"))

/-- `get_patch`: `git add -A && git diff --cached`. -/
def getPatchOp (g : GitOracle) (s : WorkState) : String := g.diffCached s.head s.work

/-- **C9, counterexample to the claim as stated.**  The claim says
`reverse_patch` invokes the reverse application "with the same whitespace
option", but the command built for any concrete staged path contains no
`--whitespace=fix` (the source runs plain `git apply -R`), while the
forward command does. -/
theorem reverse_patch_claim_counterexample :
    listContains "--whitespace=fix".data
      (applyPatchRunCmd (applyPatchPath "ctr" "uuid0")).data = true ∧
    listContains "--whitespace=fix".data
      (reversePatchRunCmd (reversePatchPath "ctr" "20240101_000000")).data = false := by
  refine ⟨by decide, by decide⟩

/-- **C9 (amended).** `apply_patch` stages the patch text via a `/tmp`
temporary file and copy-in and invokes `git apply --whitespace=fix`;
`reverse_patch` stages the same way but invokes `git apply -R` *without*
the whitespace option; each returns the adapter's `(output, exitCode)`
pair with exit string `"0"` on success.  Provided the sandbox git's
reverse application inverts the forward application on the working tree
— which plain `git apply -R` guarantees only when `--whitespace=fix`
rewrote nothing — the pair restores the pre-patch working tree, and if
the tree was clean before the patch, `get_patch()` afterwards returns
the empty diff. -/
theorem apply_reverse_roundtrip (g : GitOracle) (patch : String) (s : WorkState)
    (w2 : Tree)
    (happly : g.applyFix patch s.work = some w2)
    (hrev : g.applyRev patch w2 = some s.work)
    (hclean : s.work = s.head)
    (hrefl : g.diffCached s.head s.head = "") :
    (applyPatchOp g patch s).2 = ("", "0") ∧
    (reversePatchOp g patch (applyPatchOp g patch s).1).2 = ("", "0") ∧
    (reversePatchOp g patch (applyPatchOp g patch s).1).1 = s ∧
    getPatchOp g (reversePatchOp g patch (applyPatchOp g patch s).1).1 = "" := by
  have h1 : applyPatchOp g patch s = ({ s with work := w2 }, ("", "0")) := by
    simp [applyPatchOp, happly]
  have h2 : reversePatchOp g patch { s with work := w2 } = (s, ("", "0")) := by
    simp [reversePatchOp, hrev]
  refine ⟨by simp [h1], by simp [h1, h2], by simp [h1, h2], ?_⟩
  simp [h1, h2, getPatchOp, hclean, hrefl]

/-- A concrete git oracle for the witness: the patch adds file `f`. -/
def gWitness : GitOracle where
  applyFix := fun _ t => some (("f", "new") :: t)
  applyRev := fun _ t =>
    match t with
    | ("f", "new") :: rest => some rest
    | _ => none
  diffCached := fun t1 t2 => if t1 = t2 then "" else "diff"

/-- **C9, witness.** The round trip instantiated with a concrete oracle
and the empty clean tree. -/
theorem apply_reverse_roundtrip_witness :
    (applyPatchOp gWitness "p" ⟨[], []⟩).2 = ("", "0") ∧
    (reversePatchOp gWitness "p" (applyPatchOp gWitness "p" ⟨[], []⟩).1).2 = ("", "0") ∧
    (reversePatchOp gWitness "p" (applyPatchOp gWitness "p" ⟨[], []⟩).1).1 = ⟨[], []⟩ ∧
    getPatchOp gWitness (reversePatchOp gWitness "p" (applyPatchOp gWitness "p" ⟨[], []⟩).1).1 = "" :=
  apply_reverse_roundtrip gWitness "p" ⟨[], []⟩ [("f", "new")] rfl rfl rfl rfl

/-! ## `create_file` (`base.py:281-289`)

`create_file` writes the content to a host temp file, calls
`copy_to_container` (which raises on a failed transfer for the Docker and
Apptainer adapters), runs the `mv` rename, and returns the constant
`("", "0")`, discarding the `mv` result. -/

/-- `f"mv /testbed/{file_path}_{uuid} /{file_path}"`. -/
def createFileMvCmd (filePath uuidStr : String) : String :=
  "mv /testbed/" ++ filePath ++ "_" ++ uuidStr ++ " /" ++ filePath

/-- `create_file`, with the copy-in outcome and the `mv` run result as
oracles: a raising copy propagates (`Except.error`); otherwise the `mv`
result `mvRes` is discarded and the constant pair is returned. -/
def createFileOp (filePath content : String) (copyRes : Except String Unit)
    (mvRes : String × String) : Except String (String × String) :=
  match copyRes with
  | .error e => .error e
  | .ok _ => .ok ("", "0")

/-- **C10, counterexample to the claim as stated.**  When the copy into
the sandbox raises (e.g. a Docker `APIError`), `create_file` does not
return `("", "0")` — the exception propagates — so the return is not
unconditional. -/
theorem create_file_claim_counterexample :
    createFileOp "path" "content" (.error "APIError") ("", "0") ≠ .ok ("", "0") := by
  simp [createFileOp]

/-- **C10 (amended).** Whenever `copy_to_container` returns without
raising, `create_file` returns the constant pair `("", "0")` regardless
of the `mv` rename's output and exit code — a rename failure is
undetectable from the return value; a copy-in failure that raises
propagates to the caller as an exception. -/
theorem create_file_constant_success (filePath content e : String)
    (mvRes : String × String) :
    createFileOp filePath content (.ok ()) mvRes = .ok ("", "0") ∧
    createFileOp filePath content (.error e) mvRes = .error e :=
  ⟨rfl, rfl⟩

end R2EGym
